import Mathlib

/-!
# Verification of the Axela backend against its specification

This file gives a shallow embedding, in Lean 4, of the parts of the Axela
Python backend that the specification talks about:

* `src/backend/util/element_finder.py` — text matching, normalization,
  Levenshtein similarity and the element search (`SmartElementFinder`);
* `src/backend/core/parser.py` — the natural-language parser
  (`NaturalLanguageParser.parse`, `parse_sequence`, `_expand_compound`);
* `src/backend/core/executor.py` — `CommandExecutor.execute`;
* `src/backend/api_server.py` — the `/execute_sequence` endpoint;
* `src/backend/util/config.py` — `Config.is_command_allowed`;
* `src/backend/core/ai_agent.py` — `AIAgent._build_agent_prompt`;
* `src/backend/commands/screenshot.py` — the method surface of
  `ScreenshotCapture`.

Modelling conventions:

* Python `str` is modelled as Lean `String`; character-level operations work
  on `String.data` (a `List Char`).  `str.lower`/`str.strip`/`str.split` are
  modelled for the ASCII fragment actually exercised by the program.
* Python `float` is modelled as `ℚ`; all the constants appearing in the
  sources (`0.5`, `2.0`, `0.7`, `0.3`, `0.9`, `1.0`, …) are dyadic or small
  rationals, so no rounding subtleties are material to the claims.
* Side effects (screen capture, OCR engines, the OS, the executor's
  handlers, `json.dumps`) are passed in as explicit oracle arguments;
  exceptions raised by Python code are modelled with `Except`/`Option`.
* Machine integers do not overflow in the modelled fragment; Python ints are
  arbitrary precision and are modelled by `ℤ`/`ℕ`.
-/

/- Batteries marks the arithmetic of `Rat` `@[irreducible]`, which blocks
`decide`-style evaluation of the embedding on concrete inputs; restore the
ordinary reducibility so concrete runs of the modelled code compute. -/
set_option allowUnsafeReducibility true in
attribute [semireducible] Rat.mul Rat.inv Rat.add Rat.sub Rat.div

/-! ## Python string primitives -/

/-- Python `\s` / `str.strip()` / `str.split()` whitespace (ASCII fragment):
space, tab, newline, carriage return, vertical tab, form feed. -/
def pyIsSpace (c : Char) : Bool :=
  c = ' ' ∨ c = '\t' ∨ c = '\n' ∨ c = '\r' ∨ c = '\x0b' ∨ c = '\x0c'

/-- Python `str.lower()` (ASCII fragment). -/
def pyLower (s : String) : String :=
  ⟨s.data.map Char.toLower⟩

/-- Python `str.strip()`: remove leading and trailing whitespace. -/
def pyStrip (s : String) : String :=
  ⟨((s.data.dropWhile pyIsSpace).reverse.dropWhile pyIsSpace).reverse⟩

/-- Core of `str.split()`: split a character list on whitespace runs,
dropping empty segments. -/
def pySplitChars : List Char → List Char → List String
  | [], acc => if acc.isEmpty then [] else [⟨acc.reverse⟩]
  | c :: cs, acc =>
    if pyIsSpace c then
      if acc.isEmpty then pySplitChars cs []
      else ⟨acc.reverse⟩ :: pySplitChars cs []
    else pySplitChars cs (c :: acc)

/-- Python `str.split()` with no argument: whitespace split, no empties. -/
def pySplit (s : String) : List String :=
  pySplitChars s.data []

/-- Python substring containment `a in b` for strings. -/
def pySubstr (a b : String) : Bool :=
  decide (a.data <:+: b.data)

/-- Python `int()` applied to a rational (e.g. a numpy mean): truncation
toward zero. -/
def pyTrunc (q : ℚ) : ℤ :=
  q.num / q.den

/-! ## `element_finder.py` — data model -/

/-- `FoundElement` dataclass (element_finder.py, lines 21–27). -/
structure FoundElement where
  text : String
  confidence : ℚ
  coordinates : ℤ × ℤ
  boundingBox : ℤ × ℤ × ℤ × ℤ
  elementType : String
deriving DecidableEq, Repr

/-- One EasyOCR `readtext` result tuple `(bbox, text, confidence)`; the
bounding box is a list of corner points (EasyOCR returns four). -/
structure OcrResult where
  bbox : List (ℚ × ℚ)
  text : String
  confidence : ℚ
deriving DecidableEq, Repr

/-- One row of the pytesseract `image_to_data` dictionary. -/
structure TessItem where
  text : String
  conf : ℚ
  left : ℤ
  top : ℤ
  width : ℤ
  height : ℤ
deriving DecidableEq, Repr

/-! ## `element_finder.py` — text matching -/

/-- `SmartElementFinder._normalize_text` (element_finder.py, lines 343–346):
keep alphanumeric characters and the currency symbols `$€£¥`. -/
def normalizeText (s : String) : String :=
  ⟨s.data.filter fun ch =>
    ch.isAlphanum ∨ ch = '$' ∨ ch = '€' ∨ ch = '£' ∨ ch = '¥'⟩

/-- One target word "partially matches" some found word:
`any(word in fw or fw in word for fw in found_words)`
(element_finder.py, line 337). -/
def wordPartialMatch (word : String) (foundWords : List String) : Bool :=
  foundWords.any fun fw => pySubstr word fw ∨ pySubstr fw word

/-- `SmartElementFinder._text_matches` (element_finder.py, lines 301–341),
translated clause by clause:
exact lowercased/stripped equality; then (non-fuzzy) normalized equality;
then the length-ratio gate `len(nf)/max(len(nt),1) ∉ [0.5, 2.0]` which
returns `False` early unless the normalized target is short (≤ 3 chars);
then two substring tests; then the ≥ 70 % word-match test. -/
def textMatches (foundText targetText : String) (fuzzyMatch : Bool) : Bool :=
  let foundLower := pyStrip (pyLower foundText)
  let targetLower := pyStrip (pyLower targetText)
  if foundLower = targetLower then true
  else
    let nf := normalizeText foundLower
    let nt := normalizeText targetLower
    if ¬ fuzzyMatch then nf = nt
    else
      let lenRat : ℚ := (nf.length : ℚ) / (max nt.length 1 : ℕ)
      if (lenRat < 1/2 ∨ lenRat > 2) ∧ nt.length > 3 then false
      else if nt ≠ "" ∧ pySubstr nt nf then true
      else if nf ≠ "" ∧ pySubstr nf nt then true
      else
        let targetWords := pySplit targetLower
        let foundWords := pySplit foundLower
        if targetWords.isEmpty then false
        else
          let matching := targetWords.countP (wordPartialMatch · foundWords)
          (matching : ℚ) / (targetWords.length : ℚ) ≥ 7/10

/-! ## `element_finder.py` — OCR search paths -/

/-- Minimum of a list of rationals (numpy `np.min` over a nonempty bounding
box; the empty case cannot arise for EasyOCR boxes). -/
def listMin : List ℚ → ℚ
  | [] => 0
  | x :: xs => xs.foldl min x

/-- Maximum of a list of rationals (numpy `np.max`). -/
def listMax : List ℚ → ℚ
  | [] => 0
  | x :: xs => xs.foldl max x

/-- numpy `np.mean` of a list of rationals. -/
def listMean (l : List ℚ) : ℚ :=
  l.sum / l.length

/-- `SmartElementFinder._find_with_easyocr` (element_finder.py, lines
192–228): keep each OCR tuple whose text matches the target, with center =
truncated mean of the box corners and bounding box from the corner extremes. -/
def findWithEasyocr (results : List OcrResult) (targetText : String)
    (fuzzyMatch : Bool) : List FoundElement :=
  results.filterMap fun r =>
    if textMatches r.text targetText fuzzyMatch then
      let xs := r.bbox.map Prod.fst
      let ys := r.bbox.map Prod.snd
      let centerX := pyTrunc (listMean xs)
      let centerY := pyTrunc (listMean ys)
      let x1 := pyTrunc (listMin xs)
      let y1 := pyTrunc (listMin ys)
      let x2 := pyTrunc (listMax xs)
      let y2 := pyTrunc (listMax ys)
      some ⟨r.text, r.confidence, (centerX, centerY),
            (x1, y1, x2 - x1, y2 - y1), "text"⟩
    else none

/-- `SmartElementFinder._find_with_tesseract` (element_finder.py, lines
230–266): keep rows with confidence > 0.3, nonempty stripped text and a
matching text; Python `//` is floor division. -/
def findWithTesseract (data : List TessItem) (targetText : String)
    (fuzzyMatch : Bool) : List FoundElement :=
  data.filterMap fun i =>
    let text := pyStrip i.text
    let confidence := i.conf / 100
    if confidence > 3/10 ∧ text ≠ "" ∧ textMatches text targetText fuzzyMatch then
      let centerX := i.left + Int.fdiv i.width 2
      let centerY := i.top + Int.fdiv i.height 2
      some ⟨text, confidence, (centerX, centerY),
            (i.left, i.top, i.width, i.height), "text"⟩
    else none

/-- Stable insertion step: place `x` before the first element `y` with
`le x y`; on ties (`le` both ways) `x` stays before `y` only when `le x y`,
so an element being inserted in original order lands after earlier equals. -/
def pyInsertSorted (le : α → α → Bool) (x : α) : List α → List α
  | [] => [x]
  | y :: ys => if le x y then x :: y :: ys else y :: pyInsertSorted le x ys

/-- Stable sort by `le`, modelling Python's stable `list.sort`.  With
`le a b := b.confidence ≤ a.confidence` this is exactly
`sort(key=lambda x: x.confidence, reverse=True)`: descending confidence,
ties in original order. -/
def pyStableSort (le : α → α → Bool) : List α → List α
  | [] => []
  | x :: xs => pyInsertSorted le x (pyStableSort le xs)

/-- `SmartElementFinder.find_elements_by_text` (element_finder.py, lines
60–88).  Oracle arguments stand for the ambient state: `pathExists` is
`Path(image_path).exists()`, `easyocrResults` is `some rs` when an EasyOCR
reader is initialized and `readtext` returns `rs` (`none` when the reader is
unavailable), `tessAvailable`/`tessData` model the pytesseract branch.
After the OCR branch, elements whose raw text is in `excludeTexts` are
filtered out (only when the exclusion list is nonempty, as in the source),
and the result is sorted by descending confidence (`list.sort` with
`key=confidence, reverse=True` — a stable sort). -/
def findElementsByText (pathExists : Bool)
    (easyocrResults : Option (List OcrResult))
    (tessAvailable : Bool) (tessData : List TessItem)
    (targetText : String) (fuzzyMatch : Bool)
    (excludeTexts : List String) : List FoundElement :=
  if ¬ pathExists then []
  else
    let elements :=
      match easyocrResults with
      | some rs => findWithEasyocr rs targetText fuzzyMatch
      | none =>
        if tessAvailable then findWithTesseract tessData targetText fuzzyMatch
        else []
    let elements :=
      if ¬ excludeTexts.isEmpty then
        elements.filter fun e => ¬ excludeTexts.contains e.text
      else elements
    pyStableSort (fun a b => b.confidence ≤ a.confidence) elements

/-! ## `element_finder.py` — similarity -/

/-- Inner loop of `SmartElementFinder._levenshtein_distance`
(element_finder.py, lines 461–466): walk the previous row (`p0 = prev[j]`,
`p1 = prev[j+1]`) and the second string together, carrying the last entry of
the current row. -/
def levRowAux (c1 : Char) : List Char → List ℕ → ℕ → List ℕ
  | c2 :: s2', p0 :: p1 :: pt, cur =>
    let ins := p1 + 1
    let del := cur + 1
    let sub := p0 + (if c1 ≠ c2 then 1 else 0)
    let v := min ins (min del sub)
    v :: levRowAux c1 s2' (p1 :: pt) v
  | _, _, _ => []

/-- Outer loop of `_levenshtein_distance` (lines 459–467): one row per
character of `s1`, starting each row with `i + 1`. -/
def levLoop (s2 : List Char) : List Char → ℕ → List ℕ → List ℕ
  | [], _, prev => prev
  | c1 :: rest, i, prev =>
    levLoop s2 rest (i + 1) ((i + 1) :: levRowAux c1 s2 prev (i + 1))

/-- `_levenshtein_distance` without the initial swap (lines 455–469):
`previous_row = range(len(s2)+1)`, then the row loop; the result is the last
entry of the final row. -/
def levCore (s1 s2 : List Char) : ℕ :=
  if s2.length = 0 then s1.length
  else (levLoop s2 s1 0 (List.range (s2.length + 1))).getLastD 0

/-- `SmartElementFinder._levenshtein_distance` (element_finder.py, lines
450–469): arguments are swapped once so the first is the longer. -/
def levenshteinDistance (s1 s2 : List Char) : ℕ :=
  if s1.length < s2.length then levCore s2 s1 else levCore s1 s2

/-- `SmartElementFinder._calculate_similarity` (element_finder.py, lines
425–448): empty input gives 0.0, equality 1.0, one-sided containment 0.9,
otherwise `max(0, 1 − distance / max_len)`. -/
def calcSimilarity (str1 str2 : String) : ℚ :=
  if str1 = "" ∨ str2 = "" then 0
  else if str1 = str2 then 1
  else if pySubstr str1 str2 ∨ pySubstr str2 str1 then 9/10
  else
    let maxLen := max str1.length str2.length
    if maxLen = 0 then 1
    else
      let distance : ℕ := levenshteinDistance str1.data str2.data
      max 0 (1 - (distance : ℚ) / (maxLen : ℚ))

/-! ## `parser.py` — data model -/

/-- `CommandType` enum (parser.py, lines 12–22). -/
inductive CommandType where
  | mouse | keyboard | screenshot | system | file | program | web | utility
  | unknown
deriving DecidableEq, Repr

/-- The `.value` of each `CommandType` member. -/
def CommandType.value : CommandType → String
  | .mouse => "mouse"
  | .keyboard => "keyboard"
  | .screenshot => "screenshot"
  | .system => "system"
  | .file => "file"
  | .program => "program"
  | .web => "web"
  | .utility => "utility"
  | .unknown => "unknown"

/-- `ActionType` enum (parser.py, lines 25–69); `typeText` is the member
`TYPE` (value `"type"`) and `openA` the member `OPEN` (value `"open"`). -/
inductive ActionType where
  | click | doubleClick | rightClick | drag | scroll | move
  | typeText | keyPress | keyCombo
  | capture | save
  | shutdown | restart | logout | sleep
  | openA | create | delete | copy | moveFile | rename
  | start | close | minimize | maximize
  | search | navigate
  | wait | delay
deriving DecidableEq, Repr

/-- The `.value` of each `ActionType` member. -/
def ActionType.value : ActionType → String
  | .click => "click"
  | .doubleClick => "double_click"
  | .rightClick => "right_click"
  | .drag => "drag"
  | .scroll => "scroll"
  | .move => "move"
  | .typeText => "type"
  | .keyPress => "key_press"
  | .keyCombo => "key_combo"
  | .capture => "capture"
  | .save => "save"
  | .shutdown => "shutdown"
  | .restart => "restart"
  | .logout => "logout"
  | .sleep => "sleep"
  | .openA => "open"
  | .create => "create"
  | .delete => "delete"
  | .copy => "copy"
  | .moveFile => "move_file"
  | .rename => "rename"
  | .start => "start"
  | .close => "close"
  | .minimize => "minimize"
  | .maximize => "maximize"
  | .search => "search"
  | .navigate => "navigate"
  | .wait => "wait"
  | .delay => "delay"

/-- A parameter value: Python passes strings and floats in the `parameters`
dictionary. -/
inductive PValue where
  | str : String → PValue
  | num : ℚ → PValue
deriving DecidableEq, Repr

/-- The `parameters` dictionary, in insertion order. -/
abbrev Params := List (String × PValue)

/-- `ParsedCommand` dataclass (parser.py, lines 72–78). -/
structure ParsedCommand where
  commandType : CommandType
  action : ActionType
  parameters : Params
  confidence : ℚ
  rawText : String
deriving DecidableEq, Repr

/-! ## A regular-expression engine for the parser's pattern table

The parser's patterns use only: literals, the classes `\s`, `\d`, `.`,
`[0-9\s+\-*/().]` and `[\"']`, greedy/lazy `+` and greedy `*` over a class,
`(?:…)?` options, ordered alternation, capture groups, and one `(?:…)+`
repetition.  `Pat` covers exactly these; `pmatch` is a backtracking matcher
in continuation-passing style that explores candidates in Python's
preference order (greedy = longest first, lazy = shortest first,
alternatives left to right, an option's present branch first), so the first
success agrees with `re` on these patterns.  An explicit fuel keeps every
definition structurally recursive; `searchFuel` is generous: the recursion
depth is bounded by the pattern's sequential length plus one pattern length
per consumed character of input. -/

/-- Regular-expression AST for the parser's patterns. -/
inductive Pat where
  | lit : String → Pat
  | one : (Char → Bool) → Pat
  | plusG : (Char → Bool) → Pat
  | plusL : (Char → Bool) → Pat
  | starG : (Char → Bool) → Pat
  | seq : Pat → Pat → Pat
  | alt : Pat → Pat → Pat
  | eps : Pat
  | group : Pat → Pat
  | rep1 : Pat → Pat

/-- Node count, used only to compute an ample fuel. -/
def Pat.size : Pat → ℕ
  | .lit _ | .one _ | .plusG _ | .plusL _ | .starG _ | .eps => 1
  | .seq p q | .alt p q => p.size + q.size + 1
  | .group p | .rep1 p => p.size + 1

/-- First success over a list of candidates. -/
def firstSome (l : List ℕ) (f : ℕ → Option α) : Option α :=
  match l with
  | [] => none
  | x :: xs => f x <|> firstSome xs f

/-- The backtracking matcher.  `k` is the continuation on the remaining
suffix; a success returns the capture-group texts accumulated so far (in
order of group opening). -/
def pmatch : ℕ → Pat → List Char →
    (List Char → Option (List (List Char))) → Option (List (List Char))
  | 0, _, _, _ => none
  | n + 1, p, s, k =>
    match p with
    | .lit t => if t.data <+: s then k (s.drop t.data.length) else none
    | .one c =>
      match s with
      | [] => none
      | x :: xs => if c x then k xs else none
    | .plusG c =>
      let run := (s.takeWhile c).length
      firstSome (List.range run) fun i => k (s.drop (run - i))
    | .plusL c =>
      let run := (s.takeWhile c).length
      firstSome (List.range run) fun i => k (s.drop (i + 1))
    | .starG c =>
      let run := (s.takeWhile c).length
      firstSome (List.range (run + 1)) fun i => k (s.drop (run - i))
    | .seq p q => pmatch n p s fun s' => pmatch n q s' k
    | .alt p q => pmatch n p s k <|> pmatch n q s k
    | .eps => k s
    | .group p =>
      pmatch n p s fun s' => (k s').map fun gs => s.take (s.length - s'.length) :: gs
    | .rep1 p =>
      pmatch n p s fun s' =>
        if s'.length < s.length then pmatch n (.rep1 p) s' k <|> k s'
        else k s'

/-- Ample fuel for `pmatch` on pattern `p` over input `s`. -/
def searchFuel (p : Pat) (s : List Char) : ℕ :=
  (s.length + 2) * (p.size + 2)

/-- `re.search` at successive start positions (leftmost match wins); the
whole pattern is wrapped in a group, so a success returns
`group(0) :: groups()` like a Python match object. -/
def researchAux (p : Pat) (fuel : ℕ) : List Char → Option (List (List Char))
  | [] => pmatch fuel (.group p) [] fun _ => some []
  | x :: t =>
    match pmatch fuel (.group p) (x :: t) fun _ => some [] with
    | some gs => some gs
    | none => researchAux p fuel t

/-- The capture wrappers prepend on the way out, so `pmatch` on the
group-wrapped pattern yields the inner groups in order followed by the whole
match; rotate the whole match (`group(0)`) to the front, Python style. -/
def matchGroups (l : List (List Char)) : List String :=
  (l.getLastD [] :: l.dropLast).map fun cs => ⟨cs⟩

/-- `re.search(pattern, text)`: `some (group(0) :: groups())` on a match. -/
def research (p : Pat) (s : List Char) : Option (List String) :=
  (researchAux p (searchFuel p s) s).map matchGroups

/-- `re.search(r"^…$", text)`: the pattern must span the whole input (the
inputs have no trailing newline, the one case where Python's `$` differs). -/
def refull (p : Pat) (s : List Char) : Option (List String) :=
  (pmatch (searchFuel p s) (.group p) s fun s' =>
      if s'.isEmpty then some [] else none).map matchGroups

/-! ## `parser.py` — the pattern table -/

/-- Python `\d` (ASCII fragment). -/
def isDigit09 (c : Char) : Bool := '0' ≤ c ∧ c ≤ '9'

/-- Python `.` (without `re.DOTALL`): any character except a newline. -/
def isDotChar (c : Char) : Bool := c ≠ '\n'

/-- The class `[0-9\s+\-*/().]` of the calculate-expression pattern. -/
def isExprChar (c : Char) : Bool :=
  isDigit09 c ∨ pyIsSpace c ∨ c = '+' ∨ c = '-' ∨ c = '*' ∨ c = '/' ∨
    c = '(' ∨ c = ')' ∨ c = '.'

/-- The class `[\"']`: a double or single quote. -/
def isQuoteChar (c : Char) : Bool :=
  c = Char.ofNat 34 ∨ c = Char.ofNat 39

/-- Right-nested sequence of patterns. -/
def pseq (l : List Pat) : Pat := l.foldr Pat.seq Pat.eps

/-- Ordered alternation of a list of patterns. -/
def palts : List Pat → Pat
  | [] => Pat.one fun _ => false
  | [p] => p
  | p :: ps => Pat.alt p (palts ps)

/-- `(?:X)?`, greedy: try the present branch first. -/
def popt (p : Pat) : Pat := Pat.alt p Pat.eps

/-- `\s+` -/
def wsPlus : Pat := Pat.plusG pyIsSpace

/-- `\s*` -/
def wsStar : Pat := Pat.starG pyIsSpace

/-- `(.+)` -/
def gAny : Pat := Pat.group (Pat.plusG isDotChar)

/-- `(.+?)` -/
def gAnyLazy : Pat := Pat.group (Pat.plusL isDotChar)

/-- `(\d+(?:\.\d+)?)` of the utility patterns. -/
def gNumber : Pat :=
  Pat.group (pseq [Pat.plusG isDigit09,
    popt (pseq [Pat.lit ".", Pat.plusG isDigit09])])

/-- `(?:seconds?|secs?|s)?` of the utility patterns. -/
def unitOpt : Pat :=
  popt (palts [pseq [Pat.lit "second", popt (Pat.lit "s")],
    pseq [Pat.lit "sec", popt (Pat.lit "s")], Pat.lit "s"])

/-- One row of `_initialize_patterns`: the Python regex verbatim, its `Pat`
translation, and the command/action it produces. -/
structure PatternEntry where
  regex : String
  pat : Pat
  cmdType : CommandType
  action : ActionType

/-- `NaturalLanguageParser._initialize_patterns` (parser.py, lines 221–290),
flattened in the dictionary's insertion order (mouse, keyboard, screenshot,
system, file, program, web, utility), each row keeping its Python regex
string verbatim (used by `_calculate_confidence`). -/
def commandPatterns : List PatternEntry := [
  -- mouse
  ⟨"click\\s+(?:on\\s+)?(.+)",
    pseq [.lit "click", wsPlus, popt (pseq [.lit "on", wsPlus]), gAny],
    .mouse, .click⟩,
  ⟨"double\\s*click\\s+(?:on\\s+)?(.+)",
    pseq [.lit "double", wsStar, .lit "click", wsPlus,
      popt (pseq [.lit "on", wsPlus]), gAny],
    .mouse, .doubleClick⟩,
  ⟨"right\\s*click\\s+(?:on\\s+)?(.+)",
    pseq [.lit "right", wsStar, .lit "click", wsPlus,
      popt (pseq [.lit "on", wsPlus]), gAny],
    .mouse, .rightClick⟩,
  ⟨"drag\\s+(.+?)\\s+to\\s+(.+)",
    pseq [.lit "drag", wsPlus, gAnyLazy, wsPlus, .lit "to", wsPlus, gAny],
    .mouse, .drag⟩,
  ⟨"scroll\\s+(up|down|left|right)",
    pseq [.lit "scroll", wsPlus,
      .group (palts [.lit "up", .lit "down", .lit "left", .lit "right"])],
    .mouse, .scroll⟩,
  ⟨"move\\s+(?:mouse\\s+)?to\\s+(.+)",
    pseq [.lit "move", wsPlus, popt (pseq [.lit "mouse", wsPlus]),
      .lit "to", wsPlus, gAny],
    .mouse, .move⟩,
  -- keyboard
  ⟨"type\\s+[\\\x22\x27](.+?)[\\\x22\x27]",
    pseq [.lit "type", wsPlus, .one isQuoteChar, gAnyLazy, .one isQuoteChar],
    .keyboard, .typeText⟩,
  ⟨"type\\s+(.+)",
    pseq [.lit "type", wsPlus, gAny],
    .keyboard, .typeText⟩,
  ⟨"press\\s+(.+)",
    pseq [.lit "press", wsPlus, gAny],
    .keyboard, .keyPress⟩,
  ⟨"(?:ctrl|cmd)\\s*\\+\\s*(.+)",
    pseq [palts [.lit "ctrl", .lit "cmd"], wsStar, .lit "+", wsStar, gAny],
    .keyboard, .keyCombo⟩,
  ⟨"alt\\s*\\+\\s*(.+)",
    pseq [.lit "alt", wsStar, .lit "+", wsStar, gAny],
    .keyboard, .keyCombo⟩,
  ⟨"shift\\s*\\+\\s*(.+)",
    pseq [.lit "shift", wsStar, .lit "+", wsStar, gAny],
    .keyboard, .keyCombo⟩,
  -- screenshot
  ⟨"(?:take\\s+)?(?:a\\s+)?screenshot",
    pseq [popt (pseq [.lit "take", wsPlus]), popt (pseq [.lit "a", wsPlus]),
      .lit "screenshot"],
    .screenshot, .capture⟩,
  ⟨"capture\\s+(?:the\\s+)?screen",
    pseq [.lit "capture", wsPlus, popt (pseq [.lit "the", wsPlus]),
      .lit "screen"],
    .screenshot, .capture⟩,
  ⟨"save\\s+screenshot\\s+(?:as\\s+)?(.+)",
    pseq [.lit "save", wsPlus, .lit "screenshot", wsPlus,
      popt (pseq [.lit "as", wsPlus]), gAny],
    .screenshot, .save⟩,
  -- system
  ⟨"shutdown|shut\\s+down",
    .alt (.lit "shutdown") (pseq [.lit "shut", wsPlus, .lit "down"]),
    .system, .shutdown⟩,
  ⟨"restart|reboot",
    .alt (.lit "restart") (.lit "reboot"),
    .system, .restart⟩,
  ⟨"log\\s*(?:out|off)",
    pseq [.lit "log", wsStar, palts [.lit "out", .lit "off"]],
    .system, .logout⟩,
  ⟨"sleep|suspend",
    .alt (.lit "sleep") (.lit "suspend"),
    .system, .sleep⟩,
  -- file
  ⟨"open\\s+(?:file\\s+)?(.+)",
    pseq [.lit "open", wsPlus, popt (pseq [.lit "file", wsPlus]), gAny],
    .file, .openA⟩,
  ⟨"create\\s+(?:file\\s+)?(.+)",
    pseq [.lit "create", wsPlus, popt (pseq [.lit "file", wsPlus]), gAny],
    .file, .create⟩,
  ⟨"delete\\s+(?:file\\s+)?(.+)",
    pseq [.lit "delete", wsPlus, popt (pseq [.lit "file", wsPlus]), gAny],
    .file, .delete⟩,
  ⟨"copy\\s+(.+?)\\s+to\\s+(.+)",
    pseq [.lit "copy", wsPlus, gAnyLazy, wsPlus, .lit "to", wsPlus, gAny],
    .file, .copy⟩,
  ⟨"move\\s+(.+?)\\s+to\\s+(.+)",
    pseq [.lit "move", wsPlus, gAnyLazy, wsPlus, .lit "to", wsPlus, gAny],
    .file, .moveFile⟩,
  ⟨"rename\\s+(.+?)\\s+to\\s+(.+)",
    pseq [.lit "rename", wsPlus, gAnyLazy, wsPlus, .lit "to", wsPlus, gAny],
    .file, .rename⟩,
  -- program
  ⟨"(?:start|launch|run|open)\\s+(.+)",
    pseq [palts [.lit "start", .lit "launch", .lit "run", .lit "open"],
      wsPlus, gAny],
    .program, .start⟩,
  ⟨"close\\s+(.+)",
    pseq [.lit "close", wsPlus, gAny],
    .program, .close⟩,
  ⟨"minimize\\s+(.+)",
    pseq [.lit "minimize", wsPlus, gAny],
    .program, .minimize⟩,
  ⟨"maximize\\s+(.+)",
    pseq [.lit "maximize", wsPlus, gAny],
    .program, .maximize⟩,
  -- web
  ⟨"search\\s+(?:for\\s+)?(.+)",
    pseq [.lit "search", wsPlus, popt (pseq [.lit "for", wsPlus]), gAny],
    .web, .search⟩,
  ⟨"go\\s+to\\s+(.+)",
    pseq [.lit "go", wsPlus, .lit "to", wsPlus, gAny],
    .web, .navigate⟩,
  ⟨"navigate\\s+to\\s+(.+)",
    pseq [.lit "navigate", wsPlus, .lit "to", wsPlus, gAny],
    .web, .navigate⟩,
  -- utility
  ⟨"wait\\s+(?:for\\s+)?(\\d+(?:\\.\\d+)?)\\s*(?:seconds?|secs?|s)?",
    pseq [.lit "wait", wsPlus, popt (pseq [.lit "for", wsPlus]), gNumber,
      wsStar, unitOpt],
    .utility, .wait⟩,
  ⟨"delay\\s+(\\d+(?:\\.\\d+)?)\\s*(?:seconds?|secs?|s)?",
    pseq [.lit "delay", wsPlus, gNumber, wsStar, unitOpt],
    .utility, .delay⟩,
  ⟨"pause\\s+(?:for\\s+)?(\\d+(?:\\.\\d+)?)\\s*(?:seconds?|secs?|s)?",
    pseq [.lit "pause", wsPlus, popt (pseq [.lit "for", wsPlus]), gNumber,
      wsStar, unitOpt],
    .utility, .wait⟩,
  ⟨"sleep\\s+(\\d+(?:\\.\\d+)?)\\s*(?:seconds?|secs?|s)?",
    pseq [.lit "sleep", wsPlus, gNumber, wsStar, unitOpt],
    .utility, .wait⟩]

/-! ## `parser.py` — `parse` -/

/-- `_calculate_confidence` (parser.py, lines 370–379): base 0.8 plus the
pattern-length complexity capped at 0.2, the sum capped at 1.0 (the word
count of `text` is computed but unused in the source). -/
def calculateConfidence (pattern : String) : ℚ :=
  min (8/10 + min ((pattern.length : ℚ) / 100) (2/10)) 1

/-- Numeric value of a digit string. -/
def digitsVal (l : List Char) : ℕ :=
  l.foldl (fun a c => 10 * a + (c.toNat - 48)) 0

/-- Python `float(s)` on the shape the utility patterns capture
(`\d+(?:\.\d+)?`); any other shape raises `ValueError`, which
`_extract_parameters` turns into 1.0. -/
def pyFloat (s : String) : ℚ :=
  let intPart := s.data.takeWhile isDigit09
  let rest := s.data.drop intPart.length
  if intPart.isEmpty then 1
  else
    match rest with
    | [] => (digitsVal intPart : ℚ)
    | '.' :: frac =>
      if ¬ frac.isEmpty ∧ frac.all isDigit09 then
        (digitsVal intPart : ℚ) + (digitsVal frac : ℚ) / ((10 : ℚ) ^ frac.length)
      else 1
    | _ => 1

/-- `_extract_parameters` (parser.py, lines 318–368): `group0` is
`match.group(0)` and `groups` is `match.groups()`. -/
def extractParameters (action : ActionType) (group0 : String)
    (groups : List String) : Params :=
  match action with
  | .click | .doubleClick | .rightClick => [("target", .str (groups.headD ""))]
  | .drag => [("source", .str (groups.getD 0 "")),
              ("destination", .str (groups.getD 1 ""))]
  | .scroll => [("direction", .str (groups.headD "down"))]
  | .move => [("target", .str (groups.headD ""))]
  | .typeText => [("text", .str (groups.headD ""))]
  | .keyPress => [("key", .str (groups.headD ""))]
  | .keyCombo => [("combo", .str group0)]
  | .save => [("filename", .str (groups.headD "screenshot.png"))]
  | .openA | .create | .delete => [("path", .str (groups.headD ""))]
  | .copy | .moveFile | .rename => [("source", .str (groups.getD 0 "")),
              ("destination", .str (groups.getD 1 ""))]
  | .start | .close | .minimize | .maximize =>
      [("program", .str (groups.headD ""))]
  | .search | .navigate => [("query", .str (groups.headD ""))]
  | .wait | .delay => [("duration", .num (pyFloat (groups.headD "1")))]
  | _ => []

/-- First pattern of the table that `re.search` finds in `t`, with the
match's `group(0)` and `groups()`. -/
def firstPatternMatch : List PatternEntry → String →
    Option (PatternEntry × String × List String)
  | [], _ => none
  | e :: es, t =>
    match research e.pat t.data with
    | some (g0 :: gs) => some (e, g0, gs)
    | some [] => some (e, "", [])
    | none => firstPatternMatch es t

/-- `NaturalLanguageParser.parse` (parser.py, lines 292–316): lowercase and
strip the text, return the first matching pattern's command, and fall back
to an `unknown`/`click` command with parameters `{"text": text}` and
confidence 0.0 when nothing matches.  The function is total: parsing never
raises. -/
def parse (text : String) : ParsedCommand :=
  let t := pyStrip (pyLower text)
  match firstPatternMatch commandPatterns t with
  | some (e, g0, gs) =>
    ⟨e.cmdType, e.action, extractParameters e.action g0 gs,
      calculateConfidence e.regex, t⟩
  | none => ⟨.unknown, .click, [("text", .str t)], 0, t⟩

/-! ## `parser.py` — `_expand_compound` -/

/-- Collapse each whitespace run to a single space — `re.sub(r"\s+", " ", …)`
(the Boolean tracks whether the previous character was whitespace). -/
def collapseWsAux : List Char → Bool → List Char
  | [], _ => []
  | c :: cs, prevSpace =>
    if pyIsSpace c then
      if prevSpace then collapseWsAux cs true
      else ' ' :: collapseWsAux cs true
    else c :: collapseWsAux cs false

/-- `re.sub(r"\s+", " ", s).strip()` as used by `parse_sequence` (line 96)
and `_expand_compound` (line 189). -/
def normalizeWhitespace (s : String) : String :=
  pyStrip ⟨collapseWsAux s.data false⟩

/-- `make_keyboard_sequence` (parser.py, lines 177–184): type the expression
and press enter. -/
def makeKeyboardSequence (expr : String) : List ParsedCommand :=
  let e := pyStrip expr
  if e = "" then []
  else
    [⟨.keyboard, .typeText, [("text", .str e)], 95/100, "type " ++ e⟩,
     ⟨.keyboard, .keyPress, [("key", .str "enter")], 9/10, "press enter"⟩]

/-- The alternation `(?:and|,|\+|\splus\s)` of the add pattern. -/
def addSepAlts : Pat :=
  palts [.lit "and", .lit ",", .lit "+",
    pseq [.one pyIsSpace, .lit "plus", .one pyIsSpace]]

/-- `^(?:calculate|compute|what\s+is)\s+([0-9\s+\-*/().]+)$` -/
def calcPat : Pat :=
  pseq [palts [.lit "calculate", .lit "compute",
      pseq [.lit "what", wsPlus, .lit "is"]],
    wsPlus, .group (.plusG isExprChar)]

/-- `^add\s+([0-9]+(?:\s*(?:and|,|\+|\splus\s)\s*[0-9]+)+)\s*$` -/
def addPat : Pat :=
  pseq [.lit "add", wsPlus,
    .group (pseq [.plusG isDigit09,
      .rep1 (pseq [wsStar, addSepAlts, wsStar, .plusG isDigit09])]),
    wsStar]

/-- `^subtract\s+([0-9]+)\s+from\s+([0-9]+)\s*$` -/
def subtractPat : Pat :=
  pseq [.lit "subtract", wsPlus, .group (.plusG isDigit09), wsPlus,
    .lit "from", wsPlus, .group (.plusG isDigit09), wsStar]

/-- `^multiply\s+([0-9]+)\s+by\s+([0-9]+)\s*$` -/
def multiplyPat : Pat :=
  pseq [.lit "multiply", wsPlus, .group (.plusG isDigit09), wsPlus,
    .lit "by", wsPlus, .group (.plusG isDigit09), wsStar]

/-- `^divide\s+([0-9]+)\s+by\s+([0-9]+)\s*$` -/
def dividePat : Pat :=
  pseq [.lit "divide", wsPlus, .group (.plusG isDigit09), wsPlus,
    .lit "by", wsPlus, .group (.plusG isDigit09), wsStar]

/-- Leftmost match of the add-separator pattern `\s*(?:and|,|\+|\splus\s)\s*`
starting exactly at the head of `s`: the number of characters it consumes. -/
def addSepMatchAt (s : List Char) : Option ℕ :=
  (pmatch (searchFuel (pseq [wsStar, addSepAlts, wsStar]) s)
      (.group (pseq [wsStar, addSepAlts, wsStar])) s fun _ => some []).map
    fun gs => (gs.headD []).length

/-- `re.split(r"\s*(?:and|,|\+|\splus\s)\s*", s)`: scan left to right,
cutting at each leftmost non-overlapping separator match (the separator
always consumes at least one character).  `fuel` bounds the scan by the
input length. -/
def addSplitAux (full : List Char) : ℕ → List Char → List Char → List String
  | 0, rest, acc => [⟨acc.reverse ++ rest⟩]
  | _, [], acc => [⟨acc.reverse⟩]
  | fuel + 1, c :: rest, acc =>
    match addSepMatchAt (c :: rest) with
    | some (n + 1) =>
      ⟨acc.reverse⟩ :: addSplitAux full fuel ((c :: rest).drop (n + 1)) []
    | _ => addSplitAux full fuel rest (c :: acc)

/-- `re.split` on the add-separator pattern. -/
def addSplit (s : String) : List String :=
  addSplitAux s.data (s.data.length + 1) s.data []

/-- `" + ".join(nums)` -/
def joinPlus : List String → String
  | [] => ""
  | [x] => x
  | x :: xs => x ++ " + " ++ joinPlus xs

/-- `NaturalLanguageParser._expand_compound` (parser.py, lines 161–219):
recognize arithmetic-intent phrases and expand them into a
type-expression/press-enter pair; anything else yields `[]`. -/
def expandCompound (text : String) : List ParsedCommand :=
  let t := pyStrip (pyLower text)
  match refull calcPat t.data with
  | some (_ :: expr :: _) => makeKeyboardSequence (normalizeWhitespace expr)
  | _ =>
  match refull addPat t.data with
  | some (_ :: g1 :: _) =>
    let nums := (addSplit g1).filter (· ≠ "")
    if nums.length ≥ 2 then makeKeyboardSequence (joinPlus nums) else []
  | _ =>
  match refull subtractPat t.data with
  | some (_ :: a :: b :: _) => makeKeyboardSequence (b ++ " - " ++ a)
  | _ =>
  match refull multiplyPat t.data with
  | some (_ :: a :: b :: _) => makeKeyboardSequence (a ++ " * " ++ b)
  | _ =>
  match refull dividePat t.data with
  | some (_ :: a :: b :: _) => makeKeyboardSequence (a ++ " / " ++ b)
  | _ => []

/-! ## `parser.py` — `parse_sequence` -/

/-- Is one of the word separators `" and then "`, `" then "`, `" and "` at
position `i` of `cleaned`?  Returns the separator's length (checked in the
source's order, longest first). -/
def matchedSepAt (cleaned : List Char) (i : ℕ) : Option ℕ :=
  if decide (" and then ".data <+: cleaned.drop i) then some 10
  else if decide (" then ".data <+: cleaned.drop i) then some 6
  else if decide (" and ".data <+: cleaned.drop i) then some 5
  else none

/-- The splitting loop of `parse_sequence` (parser.py, lines 101–139): walk
the character positions tracking quote state; outside quotes, a comma or a
word separator ends the current segment (empty segments are dropped); a word
separator advances the position past itself.  `fuel` bounds the walk by the
input length (each step advances the position by at least one). -/
def seqSplitLoop (cleaned : List Char) :
    ℕ → ℕ → ℕ → Bool → Bool → List String → List String
  | 0, _, last, _, _, parts =>
    let tail := pyStrip ⟨cleaned.drop last⟩
    if tail ≠ "" then parts ++ [tail] else parts
  | fuel + 1, i, last, inSingle, inDouble, parts =>
    if i < cleaned.length then
      let ch := cleaned.getD i ' '
      let (inS, inD) :=
        if ch = Char.ofNat 39 ∧ inDouble = false then (!inSingle, inDouble)
        else if ch = Char.ofNat 34 ∧ inSingle = false then (inSingle, !inDouble)
        else (inSingle, inDouble)
      if inS = false ∧ inD = false then
        if ch = ',' then
          let seg := pyStrip ⟨(cleaned.drop last).take (i - last)⟩
          let parts' := if seg ≠ "" then parts ++ [seg] else parts
          seqSplitLoop cleaned fuel (i + 1) (i + 1) inS inD parts'
        else
          match matchedSepAt cleaned i with
          | some sepLen =>
            let seg := pyStrip ⟨(cleaned.drop last).take (i - last)⟩
            let parts' := if seg ≠ "" then parts ++ [seg] else parts
            seqSplitLoop cleaned fuel (i + sepLen) (i + sepLen) inS inD parts'
          | none => seqSplitLoop cleaned fuel (i + 1) last inS inD parts
      else seqSplitLoop cleaned fuel (i + 1) last inS inD parts
    else
      let tail := pyStrip ⟨cleaned.drop last⟩
      if tail ≠ "" then parts ++ [tail] else parts

/-- The per-segment loop of `parse_sequence` (parser.py, lines 145–157):
parse each segment; a segment that parses to `unknown` and expands as a
compound contributes its expansion; otherwise the parsed command is kept
with `raw_text` set to the lowered, stripped segment. -/
def seqAssemble : List String → List ParsedCommand
  | [] => []
  | seg :: rest =>
    let cmd := parse seg
    if cmd.commandType = CommandType.unknown ∧ expandCompound seg ≠ [] then
      expandCompound seg ++ seqAssemble rest
    else
      { cmd with rawText := pyStrip (pyLower seg) } :: seqAssemble rest

/-- `NaturalLanguageParser.parse_sequence` (parser.py, lines 86–159): empty
input parses as `[parse ""]`; otherwise normalize whitespace, split on
commas and connective words outside quotes, and short-circuit to
`[parse cleaned]` when at most one segment was found. -/
def parseSequence (text : String) : List ParsedCommand :=
  if text = "" then [parse ""]
  else
    let cleaned := normalizeWhitespace text
    let parts := seqSplitLoop cleaned.data (cleaned.data.length + 1) 0 0
      false false []
    if parts.length ≤ 1 then [parse cleaned]
    else seqAssemble parts

/-! ## `executor.py` — `CommandExecutor.execute` -/

/-- A Python exception, reduced to its message `str(e)`. -/
abbrev PyExc := String

/-- `ExecutionResult` (executor.py, lines 21–25); the constructor's
`data or {}` default is applied by callers that pass no data. -/
structure ExecutionResult where
  success : Bool
  message : String
  data : Params
deriving DecidableEq, Repr

/-- Python `str` of a `CommandType` member (used in the executor's
unknown-type message). -/
def CommandType.pyStr : CommandType → String
  | .mouse => "CommandType.MOUSE"
  | .keyboard => "CommandType.KEYBOARD"
  | .screenshot => "CommandType.SCREENSHOT"
  | .system => "CommandType.SYSTEM"
  | .file => "CommandType.FILE"
  | .program => "CommandType.PROGRAM"
  | .web => "CommandType.WEB"
  | .utility => "CommandType.UTILITY"
  | .unknown => "CommandType.UNKNOWN"

/-- The dispatch chain of `CommandExecutor.execute` (executor.py, lines
40–57): one `_execute_*` handler per command type, else the unknown-type
failure.  The handlers are effectful Python methods, modelled as an oracle
that either returns an `ExecutionResult` or raises. -/
def executeDispatch
    (handlers : CommandType → ParsedCommand → Except PyExc ExecutionResult)
    (command : ParsedCommand) : Except PyExc ExecutionResult :=
  match command.commandType with
  | .unknown =>
    .ok ⟨false, "Unknown command type: " ++ command.commandType.pyStr, []⟩
  | ct => handlers ct command

/-- `CommandExecutor.execute` (executor.py, lines 36–67): run the dispatch
inside `try`; any exception becomes a failed `ExecutionResult` with an
`"Error executing command: …"` message (logging and the history append are
side effects outside the model). -/
def executorExecute
    (handlers : CommandType → ParsedCommand → Except PyExc ExecutionResult)
    (command : ParsedCommand) : ExecutionResult :=
  match executeDispatch handlers command with
  | .ok result => result
  | .error e => ⟨false, "Error executing command: " ++ e, []⟩

/-! ## `config.py` — `is_command_allowed` -/

/-- `SecurityLevel` enum (config.py, lines 21–25). -/
inductive SecurityLevel where
  | unrestricted | moderate | strict | safeMode
deriving DecidableEq, Repr

/-- The fields of `SecuritySettings` (config.py, lines 43–63) that the
authorization gate reads (the defaults are `level = MODERATE`,
`blocked_commands = []`). -/
structure SecuritySettings where
  level : SecurityLevel
  blockedCommands : List String
deriving DecidableEq, Repr

/-- `Config.is_command_allowed` (config.py, lines 228–242): SAFE_MODE allows
only mouse/keyboard/screenshot types, STRICT refuses system/file types, and
any action in `blocked_commands` is refused. -/
def isCommandAllowed (sec : SecuritySettings)
    (commandType commandAction : String) : Bool :=
  if sec.level = .safeMode ∧
      ¬ ["mouse", "keyboard", "screenshot"].contains commandType then false
  else if sec.level = .strict ∧
      ["system", "file"].contains commandType then false
  else if sec.blockedCommands.contains commandAction then false
  else true

/-! ## `api_server.py` — `/execute_sequence` -/

/-- One block of a `CommandSequenceRequest` (api_server.py, lines 78–85);
pydantic defaults `parameters` to `{}`. -/
structure CommandBlock where
  commandType : String
  action : String
  parameters : Params
deriving DecidableEq, Repr

/-- `CommandType(value)`: the enum member with that value, raising
(= `none`) otherwise. -/
def commandTypeOfValue (v : String) : Option CommandType :=
  [CommandType.mouse, .keyboard, .screenshot, .system, .file, .program,
    .web, .utility, .unknown].find? fun ct => ct.value = v

/-- `ActionType(value)`: the enum member with that value, raising
(= `none`) otherwise. -/
def actionTypeOfValue (v : String) : Option ActionType :=
  [ActionType.click, .doubleClick, .rightClick, .drag, .scroll, .move,
    .typeText, .keyPress, .keyCombo, .capture, .save, .shutdown, .restart,
    .logout, .sleep, .openA, .create, .delete, .copy, .moveFile, .rename,
    .start, .close, .minimize, .maximize, .search, .navigate, .wait,
    .delay].find? fun a => a.value = v

/-- The `ParsedCommand(...)` construction of `/execute_sequence`
(api_server.py, lines 325–331): enum lookups on the lowercased strings
(`none` models the exception caught at line 332), confidence 1.0 and
`raw_text` from the original strings. -/
def buildCommand (b : CommandBlock) : Option ParsedCommand :=
  match commandTypeOfValue (pyLower b.commandType),
      actionTypeOfValue (pyLower b.action) with
  | some ct, some act =>
    some ⟨ct, act, b.parameters, 1, b.commandType ++ " " ++ b.action⟩
  | _, _ => none

/-- `f"Step {idx} invalid command: {block.command_type}/{block.action}"` -/
def stepInvalidMsg (idx : ℕ) (b : CommandBlock) : String :=
  "Step " ++ toString idx ++ " invalid command: " ++ b.commandType ++ "/" ++
    b.action

/-- `f"Step {idx} blocked: {cmd.command_type.value}/{cmd.action.value}"` -/
def stepBlockedMsg (idx : ℕ) (cmd : ParsedCommand) : String :=
  "Step " ++ toString idx ++ " blocked: " ++ cmd.commandType.value ++ "/" ++
    cmd.action.value

/-- The loop of `/execute_sequence` (api_server.py, lines 323–346), with
the executor as an oracle.  Returns the accumulated `messages`, the trace
of commands actually passed to `executor.execute` (to express that nothing
past a failure is dispatched), and `total_success`.  The loop breaks at the
first invalid, blocked or failed step. -/
def execSequenceLoop (sec : SecuritySettings)
    (exec : ParsedCommand → ExecutionResult) :
    List CommandBlock → ℕ → List String × List ParsedCommand × Bool
  | [], _ => ([], [], true)
  | b :: rest, idx =>
    match buildCommand b with
    | none => ([stepInvalidMsg idx b], [], false)
    | some cmd =>
      if ¬ isCommandAllowed sec cmd.commandType.value cmd.action.value then
        ([stepBlockedMsg idx cmd], [], false)
      else
        let r := exec cmd
        if ¬ r.success then ([r.message], [cmd], false)
        else
          let (ms, ds, ok) := execSequenceLoop sec exec rest (idx + 1)
          (r.message :: ms, cmd :: ds, ok)

/-- The `CommandResponse` fields `/execute_sequence` fills: `data` is
`none` for the empty-request answer and `{"steps": n}` otherwise. -/
structure CommandResponse where
  success : Bool
  message : String
  steps : Option ℕ
deriving DecidableEq, Repr

/-- The `/execute_sequence` endpoint (api_server.py, lines 313–360):
empty request → failure; otherwise run the loop and join the messages
(falling back to `"Sequence executed"`/`"Sequence failed"` when no message
was produced).  Besides the response, the model returns the loop's message
list and its dispatch trace, so that theorems can speak about the exact
results and about which commands reached the executor. -/
def executeSequence (sec : SecuritySettings)
    (exec : ParsedCommand → ExecutionResult) (blocks : List CommandBlock) :
    CommandResponse × List String × List ParsedCommand :=
  if blocks.isEmpty then (⟨false, "No commands provided", none⟩, [], [])
  else
    let (messages, dispatched, ok) := execSequenceLoop sec exec blocks 1
    (⟨ok,
      if messages.isEmpty then
        if ok then "Sequence executed" else "Sequence failed"
      else String.intercalate "\n" messages,
      some blocks.length⟩, messages, dispatched)

/-- The message one step of the loop contributes: the invalid-command or
blocked message, or the executor result's message. -/
def stepMessage (sec : SecuritySettings)
    (exec : ParsedCommand → ExecutionResult) (idx : ℕ)
    (b : CommandBlock) : String :=
  match buildCommand b with
  | none => stepInvalidMsg idx b
  | some cmd =>
    if ¬ isCommandAllowed sec cmd.commandType.value cmd.action.value then
      stepBlockedMsg idx cmd
    else (exec cmd).message

/-- The commands one step of the loop passes to the executor: none when the
block is invalid or blocked, exactly the built command otherwise. -/
def stepDispatched (sec : SecuritySettings)
    (_exec : ParsedCommand → ExecutionResult) (b : CommandBlock) :
    List ParsedCommand :=
  match buildCommand b with
  | none => []
  | some cmd =>
    if ¬ isCommandAllowed sec cmd.commandType.value cmd.action.value then []
    else [cmd]

/-- Whether one step of the loop passes: the block builds, the gate allows
it, and the executor reports success. -/
def stepOk (sec : SecuritySettings)
    (exec : ParsedCommand → ExecutionResult) (b : CommandBlock) : Bool :=
  match buildCommand b with
  | none => false
  | some cmd =>
    if ¬ isCommandAllowed sec cmd.commandType.value cmd.action.value then
      false
    else (exec cmd).success

/-- The messages of a run of consecutive steps starting at index `idx`. -/
def stepMessages (sec : SecuritySettings)
    (exec : ParsedCommand → ExecutionResult) :
    ℕ → List CommandBlock → List String
  | _, [] => []
  | idx, b :: rest =>
    stepMessage sec exec idx b :: stepMessages sec exec (idx + 1) rest

/-! ## `ai_agent.py` — `_build_agent_prompt` -/

/-- The fields of a step-history entry that `_build_agent_prompt` reads:
`entry.get("stuck_detected")` (truthiness) and
`entry.get("already_tried", "")` (`none` models an absent key); the other
keys only flow into `json.dumps`, which is an oracle. -/
structure StepRecord where
  stuckDetected : Bool
  alreadyTried : Option String
deriving DecidableEq, Repr

/-- The scan of `step_history[-3:]` (ai_agent.py, lines 333–345): the
`already_tried` of the first entry with a truthy `stuck_detected`, if any
(the loop `break`s at the first hit). -/
def firstStuckTried : List StepRecord → Option String
  | [] => none
  | e :: rest =>
    if e.stuckDetected then some (e.alreadyTried.getD "")
    else firstStuckTried rest

/-- The stuck-warning f-string (ai_agent.py, lines 336–344), with
`already_tried` interpolated at its two occurrences. -/
def stuckWarningText (alreadyTried : String) : String :=
  "\n⚠️ STUCK DETECTED: You already tried clicking \x22" ++ alreadyTried ++
  "\x22 and it didn\x27t work.\nCRITICAL: Try a DIFFERENT element this time! Look for:\n- Different text/buttons that might accomplish the same goal\n- Alternative navigation paths\n- Different wording (e.g., \x22Submit\x22 instead of \x22Done\x22, \x22OK\x22 instead of \x22Done\x22)\n- Elements in different screen locations\nDO NOT click \x22" ++
  alreadyTried ++ "\x22 again!\n"

/-- The agent-prompt text before the goal (ai_agent.py, line 349–350). -/
def agentPromptHead : String :=
  "You are operating in AXELA\x27s Agent Mode. Your mission is to complete the following goal:\nGOAL: \x22"

/-- The agent-prompt text between the goal and the stuck warning. -/
def agentPromptAfterGoal : String := "\x22\n\n"

/-- The agent-prompt text between the stuck warning and the history dump. -/
def agentPromptBeforeHistory : String :=
  "\n\nThese are the steps that have already been executed and their outcomes:\n"

/-- The agent-prompt text after the history dump (ai_agent.py, lines
357–380): the screenshot note and the response requirements. -/
def agentPromptTail : String :=
  "\n\nYou are about to receive the most recent screenshot for context. Carefully analyze what is currently on screen before deciding on the next action.\n\nRESPONSE REQUIREMENTS:\n1. Respond with VALID JSON only.\n2. Include the following top-level fields:\n   - \x22success\x22: boolean indicating whether you were able to plan the next action.\n   - \x22status\x22: \x22continue\x22, \x22complete\x22, or \x22failed\x22.\n   - \x22reasoning\x22: natural language explanation referencing what you see.\n   - \x22commands\x22: an array of commands using the standard schema.\n   - \x22final_response\x22: required when status is \x22complete\x22 or \x22failed\x22.\n3. When status is \x22continue\x22:\n   - Provide EXACTLY ONE actionable command in the \x22commands\x22 array.\n   - That command should represent the very next step to perform.\n   - If waiting or another observation is required before acting, output a single wait or screenshot command accordingly.\n4. When the goal is finished, set status to \x22complete\x22, leave \x22commands\x22 empty, and write a user-facing summary in \x22final_response\x22.\n5. If the goal cannot be completed, set status to \x22failed\x22 and explain why in \x22final_response\x22.\n6. Prefer text-based targets over coordinates whenever possible.\n7. Reference the on-screen elements you observe (button labels, link text, etc.) in \x22reasoning\x22.\n8. If the goal depends on information that might require being signed in, inspect the screenshot for \x22Sign in\x22, \x22Log in\x22, or similar prompts. If access is blocked, explain that clearly instead of clicking unrelated content.\n9. When trying to view prices, tickers, balances, or other specific data, look for elements containing the goal keywords (e.g., \x22BTC\x22, \x22Bitcoin price\x22) and prefer clicking those exact labels rather than generic hero graphics. If the relevant element is missing, navigate or search using those keywords and explain your reasoning.\n10. After clicking or navigating, plan a wait or screenshot to verify that the UI changed before assuming success. Gathering context (like taking a screenshot) is never enough on its own-either use it to plan the next action or to extract the requested data explicitly.\n11. Before issuing a typing command, add a mouse click (or other focusing action) on the exact input field you intend to edit unless you just clicked that same target in the previous step so the caret is active.\n12. Only set status to \x22complete\x22 when you can explicitly provide the requested result (e.g., quote the BTC price) or confirm the final action succeeded. If nothing has changed yet, continue reasoning toward the goal instead of stopping.\n"

/-- `AIAgent._build_agent_prompt` (ai_agent.py, lines 324–380): the history
dump is `"[]"` for an empty history and otherwise `json.dumps` (an oracle
here); the stuck warning is built from the first stuck entry among the last
three history entries; the pieces are interpolated into the prompt
template. -/
def buildAgentPrompt (dumps : List StepRecord → String) (userGoal : String)
    (stepHistory : List StepRecord) : String :=
  let historyText := if stepHistory.isEmpty then "[]" else dumps stepHistory
  let stuckWarning :=
    if stepHistory.isEmpty then ""
    else
      match firstStuckTried (stepHistory.drop (stepHistory.length - 3)) with
      | some tried => stuckWarningText tried
      | none => ""
  agentPromptHead ++ userGoal ++ agentPromptAfterGoal ++ stuckWarning ++
    agentPromptBeforeHistory ++ historyText ++ agentPromptTail

/-! ## `screenshot.py` — the method surface of `ScreenshotCapture` -/

/-- Every method the class `ScreenshotCapture` defines (screenshot.py,
lines 10–304, in source order).  `MouseController._find_element_by_description`
(mouse.py, line 132) calls `screenshot_capture._apply_taskbar_mask(screenshot)`,
whose absence from this list is the `AttributeError` that aborts the OCR
path. -/
def screenshotCaptureMethods : List String :=
  ["__init__", "capture", "capture_window", "capture_region",
   "capture_with_annotation", "capture_multiple", "capture_delayed",
   "capture_clipboard", "_add_annotations", "_draw_arrow", "_hex_to_rgb",
   "compare_screenshots", "get_screen_info", "get_screenshot_history",
   "clear_history", "set_default_format", "set_quality",
   "set_default_directory", "cleanup_old_screenshots", "create_timelapse"]

/-! ## Specification-side predicates for the fuzzy-match claim -/

/-- The fuzzy-match criterion exactly as the specification states it: an
entry matches iff (a) the normalized description is a substring of the
normalized entry or vice versa, or (b) the length ratio between entry and
description lies within `[0.5, 2.0]` and at least 70 % of the description's
whitespace-split words each partially match a word of the entry.  This is a
spec-side definition, written from the specification's words for comparison
with `textMatches` (the definition translated from the source). -/
def claimedFuzzyMatches (entryText descText : String) : Prop :=
  ((normalizeText (pyStrip (pyLower descText))).data <:+:
      (normalizeText (pyStrip (pyLower entryText))).data ∨
    (normalizeText (pyStrip (pyLower entryText))).data <:+:
      (normalizeText (pyStrip (pyLower descText))).data) ∨
  ((1/2 ≤ ((normalizeText (pyStrip (pyLower entryText))).length : ℚ) /
        ((max (normalizeText (pyStrip (pyLower descText))).length 1 : ℕ) : ℚ) ∧
      ((normalizeText (pyStrip (pyLower entryText))).length : ℚ) /
        ((max (normalizeText (pyStrip (pyLower descText))).length 1 : ℕ) : ℚ) ≤ 2) ∧
    7/10 ≤ (((pySplit (pyStrip (pyLower descText))).countP
          (wordPartialMatch · (pySplit (pyStrip (pyLower entryText))))) : ℚ) /
        (((pySplit (pyStrip (pyLower descText))).length : ℕ) : ℚ))

/-- The fuzzy-match criterion as amended to follow the code: exact
lowercased/stripped equality also matches; and the length-ratio gate (with
its ≤ 3-character short-description exception) guards the substring and
word-match clauses alike, instead of only the word-match clause.  The
substring clauses additionally require the contained side to be nonempty. -/
def amendedFuzzyMatches (entryText descText : String) : Prop :=
  pyStrip (pyLower entryText) = pyStrip (pyLower descText) ∨
  (((1/2 ≤ ((normalizeText (pyStrip (pyLower entryText))).length : ℚ) /
        ((max (normalizeText (pyStrip (pyLower descText))).length 1 : ℕ) : ℚ) ∧
      ((normalizeText (pyStrip (pyLower entryText))).length : ℚ) /
        ((max (normalizeText (pyStrip (pyLower descText))).length 1 : ℕ) : ℚ) ≤ 2) ∨
      (normalizeText (pyStrip (pyLower descText))).length ≤ 3) ∧
    ((normalizeText (pyStrip (pyLower descText)) ≠ "" ∧
        pySubstr (normalizeText (pyStrip (pyLower descText)))
          (normalizeText (pyStrip (pyLower entryText))) = true) ∨
      (normalizeText (pyStrip (pyLower entryText)) ≠ "" ∧
        pySubstr (normalizeText (pyStrip (pyLower entryText)))
          (normalizeText (pyStrip (pyLower descText))) = true) ∨
      (pySplit (pyStrip (pyLower descText)) ≠ [] ∧
        7/10 ≤ (((pySplit (pyStrip (pyLower descText))).countP
              (wordPartialMatch · (pySplit (pyStrip (pyLower entryText))))) : ℚ) /
            (((pySplit (pyStrip (pyLower descText))).length : ℕ) : ℚ))))

/-- An executable substring test (`pat` occurs contiguously in `s`), used
to state and decide containment in the long prompt strings. -/
def containsSub (pat : List Char) : List Char → Bool
  | [] => pat.isEmpty
  | x :: t => pat.isPrefixOf (x :: t) || containsSub pat t

/-! ## Helper lemmas -/

theorem containsSub_iff_infix (pat s : List Char) :
    containsSub pat s = true ↔ pat <:+: s := by
  induction s with
  | nil => simp [containsSub, List.isEmpty_iff]
  | cons x t ih =>
    simp only [containsSub, Bool.or_eq_true, ih, List.infix_cons_iff,
      List.isPrefixOf_iff_prefix]


theorem pySubstr_iff (a b : String) : pySubstr a b = true ↔ a.data <:+: b.data := by
  simp [pySubstr]

theorem mem_pyInsertSorted (le : α → α → Bool) (x a : α) (l : List α) :
    a ∈ pyInsertSorted le x l ↔ a = x ∨ a ∈ l := by
  induction l with
  | nil => simp [pyInsertSorted]
  | cons y ys ih =>
    simp only [pyInsertSorted]
    split
    · simp [List.mem_cons]
    · simp only [List.mem_cons, ih]
      tauto

theorem mem_pyStableSort (le : α → α → Bool) (a : α) (l : List α) :
    a ∈ pyStableSort le l ↔ a ∈ l := by
  induction l with
  | nil => simp [pyStableSort]
  | cons x xs ih => simp [pyStableSort, mem_pyInsertSorted, ih]

theorem firstPatternMatch_eq_none (es : List PatternEntry) (t : String)
    (h : ∀ e ∈ es, research e.pat t.data = none) :
    firstPatternMatch es t = none := by
  induction es with
  | nil => rfl
  | cons e es ih =>
    unfold firstPatternMatch
    rw [h e (List.mem_cons_self e es)]
    exact ih fun x hx => h x (List.mem_cons_of_mem _ hx)

/-! ## Claim theorems -/

/-- C10: for every target text, fuzzy flag and exclusion list (and any OCR
oracle state), `find_elements_by_text` returns the empty list rather than
raising whenever the image path does not exist on disk. -/
theorem find_elements_missing_image_returns_empty
    (easyocrResults : Option (List OcrResult)) (tessAvailable : Bool)
    (tessData : List TessItem) (targetText : String) (fuzzyMatch : Bool)
    (excludeTexts : List String) :
    findElementsByText false easyocrResults tessAvailable tessData
      targetText fuzzyMatch excludeTexts = [] := by
  simp [findElementsByText]

/-- C5: for every image state, target description, exclusion list and fuzzy
flag, and every string `e` in the exclusion list, no `FoundElement` whose
text equals `e` appears in the list returned by `find_elements_by_text`. -/
theorem find_elements_exclusion_invariant
    (pathExists : Bool) (easyocrResults : Option (List OcrResult))
    (tessAvailable : Bool) (tessData : List TessItem)
    (targetText : String) (fuzzyMatch : Bool) (excludeTexts : List String)
    (e : String) (el : FoundElement)
    (he : e ∈ excludeTexts)
    (hel : el ∈ findElementsByText pathExists easyocrResults tessAvailable
        tessData targetText fuzzyMatch excludeTexts) :
    el.text ≠ e := by
  simp only [findElementsByText] at hel
  split at hel
  · simp at hel
  · rw [mem_pyStableSort] at hel
    have hne : ¬ excludeTexts.isEmpty = true := by
      cases excludeTexts with
      | nil => simp at he
      | cons _ _ => simp
    rw [if_pos hne] at hel
    have h2 := (List.mem_filter.mp hel).2
    simp only [decide_eq_true_eq] at h2
    intro hEq
    exact h2 (by rw [hEq]; simpa using he)

/-- Closed witness for C5 at a concrete OCR run with exclusion list
`["ok"]`. -/
theorem find_elements_exclusion_invariant_witness :
    "ok" ∈ ["ok"] ∧
      (⟨"okay", 9/10, (5, 5), (0, 0, 10, 10), "text"⟩ : FoundElement) ∈
        findElementsByText true
          (some [⟨[(0, 0), (10, 0), (10, 10), (0, 10)], "okay", 9/10⟩])
          false [] "okay" true ["ok"] ∧
      FoundElement.text ⟨"okay", 9/10, (5, 5), (0, 0, 10, 10), "text"⟩ ≠ "ok" :=
  ⟨by decide, by decide,
    find_elements_exclusion_invariant true
      (some [⟨[(0, 0), (10, 0), (10, 10), (0, 10)], "okay", 9/10⟩])
      false [] "okay" true ["ok"] "ok" _ (by decide) (by decide)⟩

/-- C6 counterexample: the claim asserts `similarity(s, s) = 1.0` for every
string `s`, but the source returns 0.0 when either argument is empty, so
`similarity("", "") = 0 ≠ 1`. -/
theorem calc_similarity_empty_self_ne_one :
    calcSimilarity "" "" = 0 ∧ calcSimilarity "" "" ≠ 1 := by
  constructor <;> decide

/-- C6 (amended): `similarity(s, s) = 1.0` for every nonempty string `s`,
and `similarity(s1, s2) ∈ [0, 1]` for all input strings. -/
theorem calc_similarity_refl_and_bounds :
    (∀ s : String, s ≠ "" → calcSimilarity s s = 1) ∧
      ∀ s1 s2 : String, 0 ≤ calcSimilarity s1 s2 ∧ calcSimilarity s1 s2 ≤ 1 := by
  constructor
  · intro s hs
    unfold calcSimilarity
    rw [if_neg (by simp [hs]), if_pos rfl]
  · intro s1 s2
    simp only [calcSimilarity]
    split_ifs with h1 h2 h3 h4
    · norm_num
    · norm_num
    · norm_num
    · norm_num
    · refine ⟨le_max_left _ _, max_le (by norm_num) ?_⟩
      have h0 : (0 : ℚ) ≤ (levenshteinDistance s1.data s2.data : ℚ) /
          ((max s1.length s2.length : ℕ) : ℚ) := by positivity
      linarith

/-- Closed witness for C6 (amended), applying the theorem at `s = "a"` and
`(s1, s2) = ("ab", "cd")`. -/
theorem calc_similarity_refl_and_bounds_witness :
    calcSimilarity "a" "a" = 1 ∧
      (0 ≤ calcSimilarity "ab" "cd" ∧ calcSimilarity "ab" "cd" ≤ 1) :=
  ⟨calc_similarity_refl_and_bounds.1 "a" (by decide),
    calc_similarity_refl_and_bounds.2 "ab" "cd"⟩

/-- C3 counterexample: entry `"hello"` and description `"hello world test"`
satisfy clause (a) of the claim (the normalized entry is a substring of the
normalized description), yet the source's fuzzy matcher rejects the pair:
its length-ratio gate (5/14 < 0.5, description longer than 3 characters)
returns `False` before the substring tests run. -/
theorem text_matches_claim_counterexample :
    textMatches "hello" "hello world test" true = false ∧
      claimedFuzzyMatches "hello" "hello world test" := by
  constructor
  · decide
  · unfold claimedFuzzyMatches
    decide

/-- C3 (amended): in fuzzy-match mode an entry matches iff the lowercased,
stripped texts are equal, or the length-ratio gate passes (ratio in
`[0.5, 2.0]`, or normalized description of length ≤ 3) and one of: a
nonempty normalized substring containment either way, or the description
has words and at least 70 % of them partially match a word of the entry. -/
theorem text_matches_amended_iff (entryText descText : String) :
    textMatches entryText descText true = true ↔
      amendedFuzzyMatches entryText descText := by
  simp only [textMatches, amendedFuzzyMatches]
  set el := pyStrip (pyLower entryText) with hel0
  set dl := pyStrip (pyLower descText) with hdl0
  set ne := normalizeText el with hne0
  set nd := normalizeText dl with hnd0
  set r : ℚ := (ne.length : ℚ) / ((max nd.length 1 : ℕ) : ℚ) with hr0
  by_cases h1 : el = dl
  · simp [h1]
  · rw [if_neg h1, if_neg (show ¬¬True from not_not_intro trivial)]
    by_cases h2 : (r < 1/2 ∨ r > 2) ∧ nd.length > 3
    · rw [if_pos h2]
      refine iff_of_false (by simp) ?_
      rintro (hEq | ⟨hgate, -⟩)
      · exact h1 hEq
      · rcases hgate with ⟨hge, hle⟩ | hlen
        · rcases h2.1 with h | h <;> linarith
        · omega
    · rw [if_neg h2]
      have hgate : (1/2 ≤ r ∧ r ≤ 2) ∨ nd.length ≤ 3 := by
        rcases not_and_or.mp h2 with h | h
        · left
          push_neg at h
          exact h
        · right
          omega
      by_cases h3 : nd ≠ "" ∧ pySubstr nd ne = true
      · rw [if_pos h3]
        exact iff_of_true rfl (Or.inr ⟨hgate, Or.inl h3⟩)
      · rw [if_neg h3]
        by_cases h4 : ne ≠ "" ∧ pySubstr ne nd = true
        · rw [if_pos h4]
          exact iff_of_true rfl (Or.inr ⟨hgate, Or.inr (Or.inl h4)⟩)
        · rw [if_neg h4]
          by_cases h5 : (pySplit dl).isEmpty = true
          · rw [if_pos h5]
            have h5' : pySplit dl = [] := by simpa using h5
            refine iff_of_false (by simp) ?_
            rintro (hEq | ⟨-, hB | hB | ⟨hw, -⟩⟩)
            · exact h1 hEq
            · exact h3 hB
            · exact h4 hB
            · exact hw h5'
          · rw [if_neg h5]
            have h5' : pySplit dl ≠ [] := by simpa using h5
            rw [decide_eq_true_eq]
            constructor
            · intro hE
              exact Or.inr ⟨hgate, Or.inr (Or.inr ⟨h5', hE⟩)⟩
            · rintro (hEq | ⟨-, hB | hB | ⟨-, hE⟩⟩)
              · exact absurd hEq h1
              · exact absurd hB h3
              · exact absurd hB h4
              · exact hE

/-- C7: `parse` is total (it never raises — it is a function into
`ParsedCommand`), and whenever no pattern of the table matches the lowered,
stripped input, it returns the `unknown`/`click` command whose parameters
hold only the input text, with confidence exactly 0.0. -/
theorem parse_no_match_unknown (text : String)
    (h : ∀ e ∈ commandPatterns,
      research e.pat (pyStrip (pyLower text)).data = none) :
    parse text =
      ⟨.unknown, .click, [("text", PValue.str (pyStrip (pyLower text)))], 0,
        pyStrip (pyLower text)⟩ := by
  simp only [parse]
  rw [firstPatternMatch_eq_none _ _ h]

/-- Closed witness for C7 at the input `"hello world"`, which no pattern of
the table matches. -/
theorem parse_no_match_unknown_witness :
    parse "hello world" =
      ⟨.unknown, .click, [("text", PValue.str "hello world")], 0,
        "hello world"⟩ := by
  rw [parse_no_match_unknown "hello world" (by decide)]
  decide

/-- C4 counterexample: `parse_sequence("calculate 7 * 8")` finds no
separator, short-circuits to `[parse("calculate 7 * 8")]`, and `parse`
matches no pattern — so the result is one `unknown` command, not the two
keyboard commands the claim asserts. -/
theorem parse_sequence_calculate_counterexample :
    parseSequence "calculate 7 * 8" =
      [⟨.unknown, .click, [("text", PValue.str "calculate 7 * 8")], 0,
        "calculate 7 * 8"⟩] ∧
    (parseSequence "calculate 7 * 8").length ≠ 2 := by
  have h : parseSequence "calculate 7 * 8" =
      [⟨.unknown, .click, [("text", PValue.str "calculate 7 * 8")], 0,
        "calculate 7 * 8"⟩] := by decide
  exact ⟨h, by rw [h]; decide⟩

/-- C4 (amended): single-segment input short-circuits past the compound
expansion, so `parse_sequence("calculate 7 * 8")` returns exactly one
`unknown`/`click` command carrying the input text; the two-command
`[type "7 * 8", press enter]` plan is what `_expand_compound` produces for
that phrase, reachable only for segments of multi-segment inputs. -/
theorem parse_sequence_calculate_amended :
    parseSequence "calculate 7 * 8" =
      [⟨.unknown, .click, [("text", PValue.str "calculate 7 * 8")], 0,
        "calculate 7 * 8"⟩] ∧
    expandCompound "calculate 7 * 8" =
      [⟨.keyboard, .typeText, [("text", PValue.str "7 * 8")], 95/100,
        "type 7 * 8"⟩,
       ⟨.keyboard, .keyPress, [("key", PValue.str "enter")], 9/10,
        "press enter"⟩] := by
  constructor
  · decide
  · decide

/-- C8: for every handler behavior and every command,
`CommandExecutor.execute` returns an `ExecutionResult`; in particular, when
the dispatch raises, the exception is wrapped into a failed result carrying
the error message rather than propagated (totality of `executorExecute`
models that no exception ever escapes). -/
theorem execute_wraps_exceptions
    (handlers : CommandType → ParsedCommand → Except PyExc ExecutionResult)
    (command : ParsedCommand) (e : PyExc)
    (h : executeDispatch handlers command = .error e) :
    executorExecute handlers command =
      ⟨false, "Error executing command: " ++ e, []⟩ := by
  unfold executorExecute
  rw [h]

/-- Closed witness for C8: a handler that always raises `"boom"`. -/
theorem execute_wraps_exceptions_witness :
    executorExecute (fun _ _ => .error "boom") ⟨.mouse, .click, [], 0, ""⟩ =
      ⟨false, "Error executing command: boom", []⟩ := by
  rw [execute_wraps_exceptions (fun _ _ => .error "boom")
    ⟨.mouse, .click, [], 0, ""⟩ "boom" rfl]
  rfl

/-- C1 (code evaluated at the failing call): the method
`_apply_taskbar_mask` that `MouseController._find_element_by_description`
invokes on its `ScreenshotCapture` instance is not among the methods the
class defines, so the call raises `AttributeError`; the masking pass the
claim requires never runs (and the broad `except` then skips the whole OCR
path). -/
theorem apply_taskbar_mask_missing :
    "_apply_taskbar_mask" ∉ screenshotCaptureMethods := by
  decide

/-- The loop of `/execute_sequence` on `pre ++ b :: post` when every step
of `pre` passes and `b` does not: the messages are those of `pre` followed
by `b`'s, the dispatch trace is that of `pre` followed by `b`'s, success is
false — and nothing of `post` appears. -/
theorem execSequenceLoop_short_circuit (sec : SecuritySettings)
    (exec : ParsedCommand → ExecutionResult) (b : CommandBlock)
    (post : List CommandBlock) :
    ∀ (pre : List CommandBlock) (idx : ℕ),
      (∀ x ∈ pre, stepOk sec exec x = true) →
      stepOk sec exec b = false →
      execSequenceLoop sec exec (pre ++ b :: post) idx =
        (stepMessages sec exec idx pre ++
            [stepMessage sec exec (idx + pre.length) b],
          pre.flatMap (stepDispatched sec exec) ++ stepDispatched sec exec b,
          false) := by
  intro pre
  induction pre with
  | nil =>
    intro idx _ hb
    simp only [List.nil_append, stepMessages, List.flatMap_nil,
      List.length_nil, Nat.add_zero]
    unfold execSequenceLoop stepOk stepMessage stepDispatched at *
    cases hbc : buildCommand b with
    | none => simp [hbc]
    | some cmd =>
      simp only [hbc] at hb ⊢
      by_cases hal :
          isCommandAllowed sec cmd.commandType.value cmd.action.value = true
      · simp only [hal, not_true, if_false, Bool.not_eq_true] at hb ⊢
        simp [hb]
      · simp [hal]
  | cons x pre ih =>
    intro idx hpre hb
    have hx := hpre x (List.mem_cons_self x pre)
    unfold stepOk at hx
    simp only [List.cons_append]
    unfold execSequenceLoop
    cases hxc : buildCommand x with
    | none => rw [hxc] at hx; simp at hx
    | some cmd =>
      simp only [hxc] at hx ⊢
      by_cases hal :
          isCommandAllowed sec cmd.commandType.value cmd.action.value = true
      · simp only [hal, not_true, if_false, Bool.not_eq_true] at hx
        rw [ih (idx + 1) (fun y hy => hpre y (List.mem_cons_of_mem _ hy)) hb]
        have harith : idx + (pre.length + 1) = idx + 1 + pre.length := by omega
        simp [stepMessages, stepMessage, stepDispatched, hxc, hal, hx,
          List.length_cons, harith]
      · simp [hal] at hx

/-- C2: for every security configuration, executor behavior and command
list of the form `pre ++ b :: post` where every step of `pre` passes
(builds, is allowed, succeeds) and `b` is the first failing step (invalid,
blocked by the authorization gate, or failed), `/execute_sequence` reports
`success = false`, its results are exactly the messages of the executed
prefix ending with `b`'s message, and no command after `b` is ever
dispatched to the executor (the dispatch trace stops at `b`). -/
theorem execute_sequence_short_circuit (sec : SecuritySettings)
    (exec : ParsedCommand → ExecutionResult) (pre : List CommandBlock)
    (b : CommandBlock) (post : List CommandBlock)
    (hpre : ∀ x ∈ pre, stepOk sec exec x = true)
    (hb : stepOk sec exec b = false) :
    executeSequence sec exec (pre ++ b :: post) =
      (⟨false,
        String.intercalate "\n" (stepMessages sec exec 1 pre ++
          [stepMessage sec exec (1 + pre.length) b]),
        some (pre ++ b :: post).length⟩,
       stepMessages sec exec 1 pre ++
          [stepMessage sec exec (1 + pre.length) b],
       pre.flatMap (stepDispatched sec exec) ++ stepDispatched sec exec b) := by
  unfold executeSequence
  rw [if_neg (by simp)]
  rw [execSequenceLoop_short_circuit sec exec b post pre 1 hpre hb]
  simp

/-- Closed witness for C2 at the claim's own scenario
`[A(success), B(fail), C(success)]`: A is a mouse click that succeeds, B a
key press the executor fails, C another click; exactly two results come
back and the dispatch trace stops before C. -/
theorem execute_sequence_short_circuit_witness :
    executeSequence ⟨.moderate, []⟩
      (fun c => if c.action = .keyPress then ⟨false, "B failed", []⟩
        else ⟨true, "ok", []⟩)
      [⟨"mouse", "click", []⟩, ⟨"keyboard", "key_press", []⟩,
        ⟨"mouse", "click", []⟩] =
      (⟨false, "ok\nB failed", some 3⟩, ["ok", "B failed"],
       [⟨.mouse, .click, [], 1, "mouse click"⟩,
        ⟨.keyboard, .keyPress, [], 1, "keyboard key_press"⟩]) := by
  rw [show ([⟨"mouse", "click", []⟩, ⟨"keyboard", "key_press", []⟩,
      ⟨"mouse", "click", []⟩] : List CommandBlock) =
      [⟨"mouse", "click", []⟩] ++ ⟨"keyboard", "key_press", []⟩ ::
        [⟨"mouse", "click", []⟩] from rfl]
  rw [execute_sequence_short_circuit ⟨.moderate, []⟩
    (fun c => if c.action = .keyPress then ⟨false, "B failed", []⟩
      else ⟨true, "ok", []⟩)
    [⟨"mouse", "click", []⟩] ⟨"keyboard", "key_press", []⟩
    [⟨"mouse", "click", []⟩] (by decide) (by decide)]
  decide

/-- C9 counterexample: when an earlier entry of the last three is also
stuck (here `already_tried = "Submit"`) and a later one carries
`already_tried = "Done"`, the constructed prompt's instruction block is the
one for `"Submit"` — it forbids re-clicking `"Submit"`, and contains no
instruction forbidding `"Done"` (the loop stops at the first stuck entry). -/
theorem agent_prompt_shadowed_done_counterexample :
    buildAgentPrompt (fun _ => "[]") "goal"
        [⟨true, some "Submit"⟩, ⟨true, some "Done"⟩] =
      agentPromptHead ++ "goal" ++ agentPromptAfterGoal ++
        stuckWarningText "Submit" ++ agentPromptBeforeHistory ++ "[]" ++
        agentPromptTail ∧
    containsSub ("DO NOT click \x22Done\x22 again").data
        (stuckWarningText "Submit").data = false ∧
    containsSub ("DO NOT click \x22Submit\x22 again").data
        (stuckWarningText "Submit").data = true := by
  refine ⟨rfl, ?_, ?_⟩
  · set_option maxRecDepth 4000 in decide
  · set_option maxRecDepth 4000 in decide

/-- C9 (amended): whenever the first entry with `stuck_detected = true`
among the last three history entries has `already_tried = "Done"` (in
particular when the last entry is the only stuck one), the next turn's
prompt contains the literal substring `"Done"` inside the instruction block
forbidding its reuse (`DO NOT click "Done" again`). -/
theorem agent_prompt_forbids_first_stuck_done
    (dumps : List StepRecord → String) (userGoal : String)
    (stepHistory : List StepRecord)
    (h : firstStuckTried (stepHistory.drop (stepHistory.length - 3)) =
      some "Done") :
    ("DO NOT click \x22Done\x22 again").data <:+:
      (buildAgentPrompt dumps userGoal stepHistory).data := by
  have hne : stepHistory.isEmpty = false := by
    cases stepHistory with
    | nil => simp [firstStuckTried] at h
    | cons _ _ => rfl
  have h1 : ("DO NOT click \x22Done\x22 again").data <:+:
      (stuckWarningText "Done").data := by
    rw [← containsSub_iff_infix]
    set_option maxRecDepth 4000 in decide
  refine h1.trans ?_
  simp only [buildAgentPrompt, hne, Bool.false_eq_true, if_false, h]
  exact ⟨(agentPromptHead ++ userGoal ++ agentPromptAfterGoal).data,
    (agentPromptBeforeHistory ++ dumps stepHistory ++ agentPromptTail).data,
    by simp [String.data_append, List.append_assoc]⟩

/-- Closed witness for C9 (amended) at a two-entry history whose last entry
is the only stuck one, with `already_tried = "Done"`. -/
theorem agent_prompt_forbids_first_stuck_done_witness :
    firstStuckTried
        (([⟨false, none⟩, ⟨true, some "Done"⟩] : List StepRecord).drop
          (([⟨false, none⟩, ⟨true, some "Done"⟩] : List StepRecord).length - 3)) =
      some "Done" ∧
    ("DO NOT click \x22Done\x22 again").data <:+:
      (buildAgentPrompt (fun _ => "[]") "check the BTC price"
        [⟨false, none⟩, ⟨true, some "Done"⟩]).data :=
  ⟨by decide,
    agent_prompt_forbids_first_stuck_done (fun _ => "[]")
      "check the BTC price" [⟨false, none⟩, ⟨true, some "Done"⟩] (by decide)⟩
